import Mathlib

/-!
Verification of the flux-representation and conversion engine of the
gammapy estimators package (`flux_map.py` / `flux_point.py`).

The numeric arrays of the source are numpy float arrays.  Here a scalar is
an `FVal`: not-a-number, a signed infinity, or a finite value carried as an
exact rational.  The claims under study are stated up to floating-point
tolerance, so exact rational arithmetic settles them; the NaN/infinity
structure of the IEEE semantics is modelled explicitly because the
upper-limit and significance policies of the source branch on it.
-/

namespace GammapyFlux

/-- An IEEE-754-style scalar as held by the numpy arrays of the source:
`nan`, a signed infinity (`inf true` is positive infinity), or a finite
value modelled as an exact rational. -/
inductive FVal where
  | nan : FVal
  | inf : Bool → FVal
  | num : ℚ → FVal
deriving DecidableEq, Repr

namespace FVal

/-- IEEE negation. -/
def neg : FVal → FVal
  | nan => nan
  | inf s => inf (!s)
  | num q => num (-q)

/-- IEEE multiplication: NaN propagates; infinity times zero is NaN;
signs multiply. -/
def mul : FVal → FVal → FVal
  | nan, _ => nan
  | _, nan => nan
  | inf s, inf t => inf (s == t)
  | inf s, num q => if q = 0 then nan else inf (s == decide (0 < q))
  | num q, inf s => if q = 0 then nan else inf (s == decide (0 < q))
  | num a, num b => num (a * b)

/-- IEEE addition: NaN propagates; opposite infinities give NaN. -/
def add : FVal → FVal → FVal
  | nan, _ => nan
  | _, nan => nan
  | inf s, inf t => if s = t then inf s else nan
  | inf s, num _ => inf s
  | num _, inf s => inf s
  | num a, num b => num (a + b)

/-- IEEE subtraction. -/
def sub (a b : FVal) : FVal := a.add b.neg

/-- IEEE division: NaN propagates; inf/inf is NaN; a nonzero finite value
divided by zero is a signed infinity; zero by zero is NaN.  (The source
wraps these operations in np.errstate(invalid="ignore", divide="ignore"),
so they produce values, never exceptions.) -/
def div : FVal → FVal → FVal
  | nan, _ => nan
  | _, nan => nan
  | inf _, inf _ => nan
  | inf s, num q => inf (s == decide (0 ≤ q))
  | num _, inf _ => num 0
  | num a, num b =>
      if b = 0 then (if a = 0 then nan else inf (decide (0 < a))) else num (a / b)

/-- IEEE comparison `a < b` as numpy evaluates it: any comparison with NaN
is False. -/
def lt : FVal → FVal → Bool
  | nan, _ => false
  | _, nan => false
  | inf s, inf t => !s && t
  | inf s, num _ => !s
  | num _, inf t => t
  | num a, num b => decide (a < b)

/-- np.isfinite: true only for finite numbers (not NaN, not infinity). -/
def isfinite : FVal → Bool
  | num _ => true
  | _ => false

/-- np.isnan. -/
def isnan : FVal → Bool
  | nan => true
  | _ => false

/-- np.sign: NaN propagates, infinities have sign one. -/
def signF : FVal → FVal
  | nan => nan
  | inf s => num (if s then 1 else -1)
  | num q => num (if q < 0 then -1 else if q = 0 then 0 else 1)

/-- np.maximum: NaN propagates. -/
def maxF : FVal → FVal → FVal
  | nan, _ => nan
  | _, nan => nan
  | inf s, inf t => inf (s || t)
  | inf true, _ => inf true
  | inf false, b => b
  | _, inf true => inf true
  | a, inf false => a
  | num a, num b => num (max a b)

end FVal

/-- Largest m at most k with m * m at most n (structural linear search,
evaluable by the kernel). -/
def natSqrtBelow (n : ℕ) : ℕ → ℕ
  | 0 => 0
  | k + 1 => if (k + 1) * (k + 1) ≤ n then k + 1 else natSqrtBelow n k

/-- Integer square root by bounded search; exact on perfect squares. -/
def natSqrt (n : ℕ) : ℕ := natSqrtBelow n n

/-- Rational stand-in for the nonnegative real square root of np.sqrt:
exact on perfect squares, which are the only inputs any concrete
evaluation in this development uses; no theorem depends on its value at a
non-square. -/
def ratSqrt (q : ℚ) : ℚ := (natSqrt q.num.toNat : ℚ) / (natSqrt q.den : ℚ)

/-- np.sqrt under errstate(invalid="ignore"): NaN for negative arguments
(and for NaN), positive infinity for positive infinity. -/
def FVal.sqrtF : FVal → FVal
  | nan => nan
  | inf s => if s then inf true else nan
  | num q => if q < 0 then nan else num (ratSqrt q)

/-- Elementwise product of a value array with the list of exact reference
factors for its energy bins (the source broadcasts the factor over the
trailing spatial axes; the claims are about the energy axis, so arrays are
energy-indexed lists). -/
def scaleBy (xs : List FVal) (fs : List ℚ) : List FVal :=
  List.zipWith (fun v f => v.mul (FVal.num f)) xs fs

/-- Elementwise quotient of a value array by the list of reference
factors. -/
def divBy (xs : List FVal) (fs : List ℚ) : List FVal :=
  List.zipWith (fun v f => v.div (FVal.num f)) xs fs

theorem FVal.mul_num_div_num (v : FVal) (f : ℚ) (hf : f ≠ 0) :
    (v.mul (FVal.num f)).div (FVal.num f) = v := by
  rcases v with _ | s | q
  · simp [FVal.mul, FVal.div]
  · simp only [FVal.mul, FVal.div, if_neg hf]
    have hle : decide (0 ≤ f) = decide (0 < f) := by
      rcases lt_or_gt_of_ne hf with h | h
      · simp [not_le.mpr h, not_lt.mpr (le_of_lt h)]
      · simp [le_of_lt h, h]
    rw [hle]
    rcases s with _ | _ <;> rcases h : decide (0 < f) with _ | _ <;> simp
  · simp only [FVal.mul, FVal.div, if_neg hf]
    rw [mul_div_cancel_right₀ q hf]

theorem divBy_scaleBy (xs : List FVal) (fs : List ℚ)
    (hlen : xs.length ≤ fs.length) (hf : ∀ f ∈ fs, f ≠ 0) :
    divBy (scaleBy xs fs) fs = xs := by
  induction xs generalizing fs with
  | nil => simp [divBy, scaleBy]
  | cons x xs ih =>
    cases fs with
    | nil => simp at hlen
    | cons f fs =>
      simp only [scaleBy, divBy, List.zipWith_cons_cons] at *
      rw [FVal.mul_num_div_num x f (hf f (List.mem_cons_self f fs)),
        ih fs (Nat.succ_le_succ_iff.mp hlen)
          (fun g hg => hf g (List.mem_cons_of_mem f hg))]

/-- The five SED representations. -/
inductive SedType where
  | dnde | e2dnde | flux | eflux | likelihood
deriving DecidableEq, Repr

/-- The SED-type string of the source dictionaries. -/
def SedType.name : SedType → String
  | dnde => "dnde"
  | e2dnde => "e2dnde"
  | flux => "flux"
  | eflux => "eflux"
  | likelihood => "likelihood"

/-- The iteration order of the REQUIRED_COLUMNS dict (Python dict
insertion order), used by _guess_sed_type. -/
def sedTypeOrder : List SedType :=
  [SedType.dnde, SedType.e2dnde, SedType.flux, SedType.eflux, SedType.likelihood]

/-- REQUIRED_MAPS of flux_map.py. -/
def REQUIRED_MAPS : SedType → List String
  | SedType.dnde => ["dnde"]
  | SedType.e2dnde => ["e2dnde"]
  | SedType.flux => ["flux"]
  | SedType.eflux => ["eflux"]
  | SedType.likelihood => ["norm"]

/-- REQUIRED_COLUMNS of flux_map.py. -/
def REQUIRED_COLUMNS : SedType → List String
  | SedType.dnde => ["e_ref", "dnde"]
  | SedType.e2dnde => ["e_ref", "e2dnde"]
  | SedType.flux => ["e_min", "e_max", "flux"]
  | SedType.eflux => ["e_min", "e_max", "eflux"]
  | SedType.likelihood =>
      ["e_min", "e_max", "e_ref", "ref_dnde", "ref_flux", "ref_eflux", "norm"]

/-- The four optional error/upper-limit suffixes, in the order of the
OPTIONAL_QUANTITIES lists of flux_map.py (err, errp, errn, ul). -/
def optionalSuffixes : List String := ["_err", "_errp", "_errn", "_ul"]

/-- OPTIONAL_QUANTITIES of flux_map.py: the SED-type main quantity name
with each optional suffix (for likelihood, the norm family). -/
def OPTIONAL_QUANTITIES (t : SedType) : List String :=
  match t with
  | SedType.likelihood => optionalSuffixes.map (fun suf => "norm" ++ suf)
  | t => optionalSuffixes.map (fun suf => t.name ++ suf)

/-- OPTIONAL_QUANTITIES_COMMON of flux_map.py (is_ul is commented out in
the source). -/
def OPTIONAL_QUANTITIES_COMMON : List String :=
  ["ts", "sqrt_ts", "npred", "npred_excess", "npred_null", "stat",
   "stat_null", "niter", "counts"]

/-- REQUIRED_QUANTITIES_SCAN of flux_map.py. -/
def REQUIRED_QUANTITIES_SCAN : List String := ["stat_scan", "stat"]

/-- VALID_QUANTITIES of flux_map.py. -/
def VALID_QUANTITIES : List String :=
  ["norm", "norm_err", "norm_errn", "norm_errp", "norm_ul", "ts", "sqrt_ts",
   "npred", "npred_excess", "npred_null", "stat", "stat_scan", "stat_null",
   "niter", "is_ul", "counts"]

/-- FluxMaps.all_quantities: required plus optional plus common, with the
scan quantities appended for the likelihood type only. -/
def all_quantities (t : SedType) : List String :=
  REQUIRED_MAPS t ++ OPTIONAL_QUANTITIES t ++ OPTIONAL_QUANTITIES_COMMON ++
    (if t = SedType.likelihood then REQUIRED_QUANTITIES_SCAN else [])

/-- The reference spectral model capability interface (spec section 2):
the SpectralModel collaborator of gammapy.modeling reduced to the three
functions the flux container uses.  The SkyModel wrapper of the source
adds only a spatial component, irrelevant to the claims, so a SkyModel is
identified with its spectral_model. -/
structure SpectralModel where
  evaluate : ℚ → ℚ
  integral : ℚ → ℚ → ℚ
  energy_flux : ℚ → ℚ → ℚ

/-- The energy axis of the shared map geometry: N+1 edges for N bins, and
the axis's defined centers (carried as data because the geometry is an
external collaborator — for a log axis the center is the geometric mean,
not necessarily representable exactly, so it is free data here). -/
structure EnergyAxis where
  edges : List ℚ
  center : List ℚ
deriving DecidableEq, Repr

/-- The container meta mapping, restricted to the keys the source
reads. -/
structure MetaData where
  n_sigma : Option ℚ := none
  n_sigma_ul : Option ℚ := none
  ts_threshold_ul : Option ℚ := none
  sed_type_init : Option String := none
deriving DecidableEq, Repr

/-- The _data mapping of a FluxMaps container: norm is always present,
every other quantity is optional.  stat_scan profiles are kept as an
opaque value block: every operation the claims touch copies them verbatim
and never recomputes them.  A stored is_ul column is not modelled: no
accessor of the source ever reads _data["is_ul"]. -/
structure FluxData where
  norm : List FVal
  norm_err : Option (List FVal) := none
  norm_errn : Option (List FVal) := none
  norm_errp : Option (List FVal) := none
  norm_ul : Option (List FVal) := none
  ts : Option (List FVal) := none
  sqrt_ts : Option (List FVal) := none
  npred : Option (List FVal) := none
  npred_excess : Option (List FVal) := none
  npred_null : Option (List FVal) := none
  stat : Option (List FVal) := none
  stat_null : Option (List FVal) := none
  stat_scan : Option (List FVal) := none
  niter : Option (List FVal) := none
  counts : Option (List FVal) := none
deriving DecidableEq, Repr

/-- Dictionary view of the _data mapping (key membership is
available_quantities membership). -/
def FluxData.lookup (d : FluxData) : String → Option (List FVal)
  | "norm" => some d.norm
  | "norm_err" => d.norm_err
  | "norm_errn" => d.norm_errn
  | "norm_errp" => d.norm_errp
  | "norm_ul" => d.norm_ul
  | "ts" => d.ts
  | "sqrt_ts" => d.sqrt_ts
  | "npred" => d.npred
  | "npred_excess" => d.npred_excess
  | "npred_null" => d.npred_null
  | "stat" => d.stat
  | "stat_null" => d.stat_null
  | "stat_scan" => d.stat_scan
  | "niter" => d.niter
  | "counts" => d.counts
  | _ => none

/-- A FluxMaps container: the quantity mapping, the reference model (None
allowed, as in the source constructor), the shared energy axis of the map
geometry, and the meta mapping. -/
structure FluxMaps where
  data : FluxData
  reference_model : Option SpectralModel
  axis : EnergyAxis
  meta : MetaData := {}

/-- The AttributeError text raised by FluxMaps._check_quantity (with the
quoting of the name dropped). -/
def quantityErr (q : String) : String :=
  "Quantity " ++ q ++ " is not defined on current flux estimate."

/-- An accessor body guarded by _check_quantity: the stored value if
present, the AttributeError otherwise. -/
def checkQuantity (q : String) (o : Option (List FVal)) : Except String (List FVal) :=
  match o with
  | some v => Except.ok v
  | none => Except.error (quantityErr q)

namespace FluxMaps

/-- The norm property (always present). -/
def norm (c : FluxMaps) : List FVal := c.data.norm

def norm_err (c : FluxMaps) : Except String (List FVal) :=
  checkQuantity "norm_err" c.data.norm_err

def norm_errn (c : FluxMaps) : Except String (List FVal) :=
  checkQuantity "norm_errn" c.data.norm_errn

def norm_errp (c : FluxMaps) : Except String (List FVal) :=
  checkQuantity "norm_errp" c.data.norm_errp

def norm_ul (c : FluxMaps) : Except String (List FVal) :=
  checkQuantity "norm_ul" c.data.norm_ul

def ts (c : FluxMaps) : Except String (List FVal) :=
  checkQuantity "ts" c.data.ts

def npred (c : FluxMaps) : Except String (List FVal) :=
  checkQuantity "npred" c.data.npred

def npred_null (c : FluxMaps) : Except String (List FVal) :=
  checkQuantity "npred_null" c.data.npred_null

def stat (c : FluxMaps) : Except String (List FVal) :=
  checkQuantity "stat" c.data.stat

def stat_null (c : FluxMaps) : Except String (List FVal) :=
  checkQuantity "stat_null" c.data.stat_null

def stat_scan (c : FluxMaps) : Except String (List FVal) :=
  checkQuantity "stat_scan" c.data.stat_scan

def niter (c : FluxMaps) : Except String (List FVal) :=
  checkQuantity "niter" c.data.niter

def counts (c : FluxMaps) : Except String (List FVal) :=
  checkQuantity "counts" c.data.counts

/-- npred_excess: npred - npred_null, checking npred first, then
npred_null, exactly as the source property does. -/
def npred_excess (c : FluxMaps) : Except String (List FVal) :=
  match c.data.npred with
  | none => Except.error (quantityErr "npred")
  | some a =>
    match c.data.npred_null with
    | none => Except.error (quantityErr "npred_null")
    | some b => Except.ok (List.zipWith FVal.sub a b)

/-- ts_threshold_ul: meta value with default 4. -/
def ts_threshold_ul (c : FluxMaps) : ℚ := c.meta.ts_threshold_ul.getD 4

/-- n_sigma: meta value with default 1. -/
def n_sigma (c : FluxMaps) : ℚ := c.meta.n_sigma.getD 1

def energy_ref (c : FluxMaps) : List ℚ := c.axis.center

def energy_min (c : FluxMaps) : List ℚ := c.axis.edges.dropLast

def energy_max (c : FluxMaps) : List ℚ := c.axis.edges.tail

/-- is_ul: the three-way policy of the source.  If both ts and norm_ul
are stored, a bin is an upper limit when ts < ts_threshold_ul; else if
norm_ul is stored, when norm_ul is finite; else when norm is NaN. -/
def is_ul (c : FluxMaps) : List Bool :=
  match c.data.ts, c.data.norm_ul with
  | some tsv, some _ => tsv.map (fun t => t.lt (FVal.num c.ts_threshold_ul))
  | none, some ulv => ulv.map FVal.isfinite
  | _, none => c.data.norm.map FVal.isnan

/-- np.where(norm > 0, np.sqrt(ts), -np.sqrt(ts)), elementwise. -/
def sqrtTsData (normv tsv : List FVal) : List FVal :=
  List.zipWith
    (fun n t => if (FVal.num 0).lt n then t.sqrtF else t.sqrtF.neg) normv tsv

/-- sqrt_ts: the stored map if present, else derived from ts with the
sign taken from the comparison norm > 0 (accessing ts raises if ts is
absent too). -/
def sqrt_ts (c : FluxMaps) : Except String (List FVal) :=
  match c.data.sqrt_ts with
  | some v => Except.ok v
  | none =>
    match c.data.ts with
    | some tsv => Except.ok (sqrtTsData c.data.norm tsv)
    | none => Except.error (quantityErr "ts")

/-- dnde_ref: the reference model evaluated at the bin centers.  A
container whose reference model is None makes the source raise on this
property; the empty list stands for that failure and no claim evaluates
it. -/
def dnde_ref (c : FluxMaps) : List ℚ :=
  match c.reference_model with
  | some m => c.energy_ref.map m.evaluate
  | none => []

/-- e2dnde_ref: reference differential flux times energy squared. -/
def e2dnde_ref (c : FluxMaps) : List ℚ :=
  match c.reference_model with
  | some m => c.energy_ref.map (fun e => m.evaluate e * e ^ 2)
  | none => []

/-- flux_ref: reference model integrated over each bin. -/
def flux_ref (c : FluxMaps) : List ℚ :=
  match c.reference_model with
  | some m => List.zipWith m.integral c.energy_min c.energy_max
  | none => []

/-- eflux_ref: reference energy flux over each bin. -/
def eflux_ref (c : FluxMaps) : List ℚ :=
  match c.reference_model with
  | some m => List.zipWith m.energy_flux c.energy_min c.energy_max
  | none => []

def dnde (c : FluxMaps) : List FVal := scaleBy c.norm c.dnde_ref

def dnde_err (c : FluxMaps) : Except String (List FVal) :=
  c.norm_err.map (fun v => scaleBy v c.dnde_ref)

def dnde_errn (c : FluxMaps) : Except String (List FVal) :=
  c.norm_errn.map (fun v => scaleBy v c.dnde_ref)

def dnde_errp (c : FluxMaps) : Except String (List FVal) :=
  c.norm_errp.map (fun v => scaleBy v c.dnde_ref)

def dnde_ul (c : FluxMaps) : Except String (List FVal) :=
  c.norm_ul.map (fun v => scaleBy v c.dnde_ref)

def e2dnde (c : FluxMaps) : List FVal := scaleBy c.norm c.e2dnde_ref

def e2dnde_err (c : FluxMaps) : Except String (List FVal) :=
  c.norm_err.map (fun v => scaleBy v c.e2dnde_ref)

def e2dnde_errn (c : FluxMaps) : Except String (List FVal) :=
  c.norm_errn.map (fun v => scaleBy v c.e2dnde_ref)

def e2dnde_errp (c : FluxMaps) : Except String (List FVal) :=
  c.norm_errp.map (fun v => scaleBy v c.e2dnde_ref)

def e2dnde_ul (c : FluxMaps) : Except String (List FVal) :=
  c.norm_ul.map (fun v => scaleBy v c.e2dnde_ref)

def flux (c : FluxMaps) : List FVal := scaleBy c.norm c.flux_ref

def flux_err (c : FluxMaps) : Except String (List FVal) :=
  c.norm_err.map (fun v => scaleBy v c.flux_ref)

def flux_errn (c : FluxMaps) : Except String (List FVal) :=
  c.norm_errn.map (fun v => scaleBy v c.flux_ref)

def flux_errp (c : FluxMaps) : Except String (List FVal) :=
  c.norm_errp.map (fun v => scaleBy v c.flux_ref)

def flux_ul (c : FluxMaps) : Except String (List FVal) :=
  c.norm_ul.map (fun v => scaleBy v c.flux_ref)

def eflux (c : FluxMaps) : List FVal := scaleBy c.norm c.eflux_ref

def eflux_err (c : FluxMaps) : Except String (List FVal) :=
  c.norm_err.map (fun v => scaleBy v c.eflux_ref)

def eflux_errn (c : FluxMaps) : Except String (List FVal) :=
  c.norm_errn.map (fun v => scaleBy v c.eflux_ref)

def eflux_errp (c : FluxMaps) : Except String (List FVal) :=
  c.norm_errp.map (fun v => scaleBy v c.eflux_ref)

def eflux_ul (c : FluxMaps) : Except String (List FVal) :=
  c.norm_ul.map (fun v => scaleBy v c.eflux_ref)

/-- The capability table behind getattr(self, quantity): the accessor for
each quantity name (spec section 9 reimplementation note).  An unknown
name is an attribute lookup failure, rendered with the same error shape
as _check_quantity. -/
def getQuantity (c : FluxMaps) : String → Except String (List FVal)
  | "norm" => Except.ok c.norm
  | "norm_err" => c.norm_err
  | "norm_errn" => c.norm_errn
  | "norm_errp" => c.norm_errp
  | "norm_ul" => c.norm_ul
  | "ts" => c.ts
  | "sqrt_ts" => c.sqrt_ts
  | "npred" => c.npred
  | "npred_excess" => c.npred_excess
  | "npred_null" => c.npred_null
  | "stat" => c.stat
  | "stat_null" => c.stat_null
  | "stat_scan" => c.stat_scan
  | "niter" => c.niter
  | "counts" => c.counts
  | "dnde" => Except.ok c.dnde
  | "dnde_err" => c.dnde_err
  | "dnde_errn" => c.dnde_errn
  | "dnde_errp" => c.dnde_errp
  | "dnde_ul" => c.dnde_ul
  | "e2dnde" => Except.ok c.e2dnde
  | "e2dnde_err" => c.e2dnde_err
  | "e2dnde_errn" => c.e2dnde_errn
  | "e2dnde_errp" => c.e2dnde_errp
  | "e2dnde_ul" => c.e2dnde_ul
  | "flux" => Except.ok c.flux
  | "flux_err" => c.flux_err
  | "flux_errn" => c.flux_errn
  | "flux_errp" => c.flux_errp
  | "flux_ul" => c.flux_ul
  | "eflux" => Except.ok c.eflux
  | "eflux_err" => c.eflux_err
  | "eflux_errn" => c.eflux_errn
  | "eflux_errp" => c.eflux_errp
  | "eflux_ul" => c.eflux_ul
  | q => Except.error (quantityErr q)

end FluxMaps

/-- First-match association lookup: the dict access maps[key]. -/
def lookupEntry (entries : List (String × List FVal)) (q : String) : Option (List FVal) :=
  (entries.find? (fun p => p.1 == q)).map (fun p => p.2)

/-- A Maps object: named quantity blocks over one shared energy axis
(the spec invariant that all quantities of a container share a single
geometry). -/
structure Maps where
  axis : EnergyAxis
  entries : List (String × List FVal)

/-- The keys of a Maps dictionary. -/
def mapNames (maps : Maps) : List String := maps.entries.map (fun p => p.1)

/-- The body of FluxMaps.to_maps: for each name in all_quantities, probe
the accessor with getattr(self, quantity, None) — an accessor failure
yields None and the entry is skipped. -/
def toMapsEntries (c : FluxMaps) (qs : List String) : List (String × List FVal) :=
  qs.filterMap (fun n => ((c.getQuantity n).toOption).map (fun v => (n, v)))

/-- FluxMaps.to_maps: export the container in the given SED type. -/
def to_maps (c : FluxMaps) (t : SedType) : Maps :=
  { axis := c.axis, entries := toMapsEntries c (all_quantities t) }

/-- FluxMaps._guess_sed_type: the first SED type, in REQUIRED_COLUMNS
order, whose required column set is a subset of the given names; None if
no type matches. -/
def guess_sed_type (names : List String) : Option SedType :=
  sedTypeOrder.find? (fun t => (REQUIRED_COLUMNS t).all (fun q => names.contains q))

/-- FluxMaps._validate_data: the required MAPS of the SED type must all
be present. -/
def validate_data (names : List String) (t : SedType) : Bool :=
  (REQUIRED_MAPS t).all (fun q => names.contains q)

/-- Modelled from the spec: the default reference model substituted when
none is given — a point-source power law of spectral index 2
(PowerLawSpectralModel with its defaults: amplitude 1e-12 cm-2 s-1 TeV-1,
reference energy 1 TeV; energies in TeV).  PowerLawSpectralModel itself
lives in gammapy.modeling.models, outside src/; its closed-form value and
integral follow the spec and the power-law rows of the model test table
in src (index 2, amplitude 4: integral over 1-10 TeV equals 3.6).  Its
energy flux at index 2 is a logarithm, irrational, and never evaluated by
any claim; the capability is carried as the zero function. -/
def reference_model_default : SpectralModel :=
  { evaluate := fun e => (1 / 10 ^ 12) / e ^ 2
    integral := fun a b => (1 / 10 ^ 12) * (1 / a - 1 / b)
    energy_flux := fun _ _ => 0 }

/-- Modelled from the spec: SpectralModel.reference_fluxes (in
gammapy.modeling, outside src/) returns the per-bin reference flux factor
of each SED family — the model at the bin center for dnde, the same times
energy squared for e2dnde, the integral resp. energy flux over the bin
for flux/eflux (spec sections 2, 4.2 and 6).  It agrees with the in-source
_ref properties of FluxMaps evaluated on the same axis and model. -/
def referenceFluxes (m : SpectralModel) (axis : EnergyAxis) : SedType → List ℚ
  | SedType.dnde => axis.center.map m.evaluate
  | SedType.e2dnde => axis.center.map (fun e => m.evaluate e * e ^ 2)
  | SedType.flux => List.zipWith m.integral axis.edges.dropLast axis.edges.tail
  | SedType.eflux => List.zipWith m.energy_flux axis.edges.dropLast axis.edges.tail
  | SedType.likelihood => []

/-- Result of a construction path: the container, and whether the
warning-level "No reference model set ... assuming point source with E^-2
spectrum" log line was emitted. -/
structure FromMapsResult where
  container : FluxMaps
  warned : Bool

/-- The likelihood branch of FluxMaps.from_maps: the maps dictionary is
stored as the container data as-is (the reference model is stored even
when None, as the source constructor does). -/
def from_maps_likelihood (maps : Maps) (reference_model : Option SpectralModel)
    (meta : MetaData) : FluxMaps :=
  { data :=
    { norm := (lookupEntry maps.entries "norm").getD []
      norm_err := lookupEntry maps.entries "norm_err"
      norm_errn := lookupEntry maps.entries "norm_errn"
      norm_errp := lookupEntry maps.entries "norm_errp"
      norm_ul := lookupEntry maps.entries "norm_ul"
      ts := lookupEntry maps.entries "ts"
      sqrt_ts := lookupEntry maps.entries "sqrt_ts"
      npred := lookupEntry maps.entries "npred"
      npred_excess := lookupEntry maps.entries "npred_excess"
      npred_null := lookupEntry maps.entries "npred_null"
      stat := lookupEntry maps.entries "stat"
      stat_null := lookupEntry maps.entries "stat_null"
      stat_scan := lookupEntry maps.entries "stat_scan"
      niter := lookupEntry maps.entries "niter"
      counts := lookupEntry maps.entries "counts" }
    reference_model := reference_model
    axis := maps.axis
    meta := meta }

/-- The conversion branch of FluxMaps.from_maps for a non-likelihood SED
type: divide the main map and its optional error/upper-limit siblings by
the reference flux factor (the key rename key.replace(sed_type, "norm")
maps each sed-type sibling to the matching norm sibling), and copy the
common optional quantities verbatim.  stat_scan is not in the common list,
so it is dropped on this path. -/
def from_maps_converted (maps : Maps) (t : SedType) (m : SpectralModel)
    (meta : MetaData) : FluxMaps :=
  let factor := referenceFluxes m maps.axis t
  { data :=
    { norm := divBy ((lookupEntry maps.entries t.name).getD []) factor
      norm_err :=
        (lookupEntry maps.entries (t.name ++ "_err")).map (fun v => divBy v factor)
      norm_errn :=
        (lookupEntry maps.entries (t.name ++ "_errn")).map (fun v => divBy v factor)
      norm_errp :=
        (lookupEntry maps.entries (t.name ++ "_errp")).map (fun v => divBy v factor)
      norm_ul :=
        (lookupEntry maps.entries (t.name ++ "_ul")).map (fun v => divBy v factor)
      ts := lookupEntry maps.entries "ts"
      sqrt_ts := lookupEntry maps.entries "sqrt_ts"
      npred := lookupEntry maps.entries "npred"
      npred_excess := lookupEntry maps.entries "npred_excess"
      npred_null := lookupEntry maps.entries "npred_null"
      stat := lookupEntry maps.entries "stat"
      stat_null := lookupEntry maps.entries "stat_null"
      stat_scan := none
      niter := lookupEntry maps.entries "niter"
      counts := lookupEntry maps.entries "counts" }
    reference_model := some m
    axis := maps.axis
    meta := meta }

/-- FluxMaps.from_maps: guess the SED type if not given (the source
guesses over REQUIRED_COLUMNS even for maps), validate the required maps,
then store as-is for likelihood or divide by the reference flux factors
otherwise, substituting the default power-law model with a warning when
none is given. -/
def from_maps (maps : Maps) (sed_type : Option SedType)
    (reference_model : Option SpectralModel) (meta : MetaData) :
    Except String FromMapsResult :=
  let st := match sed_type with
    | some t => some t
    | none => guess_sed_type (mapNames maps)
  match st with
  | none => Except.error "Specifying the sed type is required"
  | some t =>
    if validate_data (mapNames maps) t then
      if t = SedType.likelihood then
        Except.ok { container := from_maps_likelihood maps reference_model meta
                    warned := false }
      else
        Except.ok
          { container :=
              from_maps_converted maps t (reference_model.getD reference_model_default) meta
            warned := reference_model.isNone }
    else Except.error ("Missing data / column for sed type " ++ t.name)

/-- A flux-point table: named columns plus the SED_TYPE entry of the
table meta. -/
structure Table where
  cols : List (String × List FVal)
  sed_type_meta : Option String

def Table.colnames (tb : Table) : List String := tb.cols.map (fun p => p.1)

def Table.get (tb : Table) (q : String) : Option (List FVal) := lookupEntry tb.cols q

/-- Column assignment table[q] = v: replace in place if the column
exists, append otherwise. -/
def setEntry (entries : List (String × List FVal)) (q : String) (v : List FVal) :
    List (String × List FVal) :=
  if entries.any (fun p => p.1 == q) then
    entries.map (fun p => if p.1 == q then (q, v) else p)
  else entries ++ [(q, v)]

def Table.set (tb : Table) (q : String) (v : List FVal) : Table :=
  { tb with cols := setEntry tb.cols q v }

/-- The column expression 2 * table[...] of _convert_loglike_columns. -/
def doubleVals (xs : List FVal) : List FVal := xs.map (fun v => (FVal.num 2).mul v)

/-- One legacy-column migration step: write canon = 2 * legacy when the
legacy column is present and the canonical one absent. -/
def migrate_col (tb : Table) (legacy canon : String) : Table :=
  if tb.colnames.contains legacy && !(tb.colnames.contains canon) then
    tb.set canon (doubleVals ((tb.get legacy).getD []))
  else tb

/-- FluxPoints._convert_loglike_columns: loglike to stat, loglike_null to
stat_null, dloglike_scan to stat_scan, in that order, each multiplied by 2
and each applied only when the canonical column is absent. -/
def convert_loglike_columns (tb : Table) : Table :=
  migrate_col
    (migrate_col (migrate_col tb "loglike" "stat") "loglike_null" "stat_null")
    "dloglike_scan" "stat_scan"

/-- Numeric view of an energy column (energy values are finite in every
claim; a non-finite entry reads as zero). -/
def numsOf (xs : List FVal) : List ℚ :=
  xs.map (fun v => match v with | FVal.num q => q | _ => 0)

def Table.e_ref_col (tb : Table) : List ℚ := numsOf ((tb.get "e_ref").getD [])

def Table.e_min_col (tb : Table) : List ℚ := numsOf ((tb.get "e_min").getD [])

def Table.e_max_col (tb : Table) : List ℚ := numsOf ((tb.get "e_max").getD [])

/-- Modelled from the spec: the reference flux factors of
SpectralModel.reference_fluxes computed from the gadf-sed energy columns
of a table (MapAxis.from_table with format gadf-sed-energy, both outside
src/) — bin centers from e_ref, bin edges from e_min/e_max. -/
def tableReferenceFluxes (m : SpectralModel) (tb : Table) : SedType → List ℚ
  | SedType.dnde => tb.e_ref_col.map m.evaluate
  | SedType.e2dnde => tb.e_ref_col.map (fun e => m.evaluate e * e ^ 2)
  | SedType.flux => List.zipWith m.integral tb.e_min_col tb.e_max_col
  | SedType.eflux => List.zipWith m.energy_flux tb.e_min_col tb.e_max_col
  | SedType.likelihood => []

/-- Modelled from the spec: MapAxis.from_table (external) builds the
energy axis from the e_min/e_max edge columns and the e_ref centers of a
gadf-sed table. -/
def axisFromTable (tb : Table) : EnergyAxis :=
  { edges := tb.e_min_col ++ tb.e_max_col.getLast?.toList
    center := tb.e_ref_col }

/-- FluxPoints._convert_flux_columns: build the likelihood-format data
table — the energy and reference-flux columns of the reference_fluxes
dict (spec section 6 likelihood column list), the norm column as the
main flux column divided by the reference factor, and each present
optional sibling divided by the same factor under the key rename
key.replace(sed_type, "norm").  Other columns of the input table are not
carried over (the source rebuilds the table from the fluxes dict). -/
def convert_flux_columns (tb : Table) (m : SpectralModel) (t : SedType) : Table :=
  let factor := tableReferenceFluxes m tb t
  let col_ref := (tb.get t.name).getD []
  { cols :=
      (["e_ref", "e_min", "e_max"].filterMap
        (fun q => (tb.get q).map (fun v => (q, v)))) ++
      [("ref_dnde", (tableReferenceFluxes m tb SedType.dnde).map FVal.num),
       ("ref_flux", (tableReferenceFluxes m tb SedType.flux).map FVal.num),
       ("ref_eflux", (tableReferenceFluxes m tb SedType.eflux).map FVal.num),
       ("norm", divBy col_ref factor)] ++
      (optionalSuffixes.filterMap (fun suf =>
        (tb.get (t.name ++ suf)).map (fun v => ("norm" ++ suf, divBy v factor))))
    sed_type_meta := tb.sed_type_meta }

/-- Modelled from the spec: TemplateSpectralModel (external), the
tabulated reference model built from the e_ref and ref_dnde columns when
a likelihood table carries no explicit model.  It evaluates to the
tabulated value at the tabulated energies; the claims never evaluate it
elsewhere nor exercise its integral capabilities (carried as zero). -/
def templateModel (tb : Table) : SpectralModel :=
  { evaluate := fun e =>
      (((tb.e_ref_col.zip (numsOf ((tb.get "ref_dnde").getD []))).find?
          (fun p => decide (p.1 = e))).map (fun p => p.2)).getD 0
    integral := fun _ _ => 0
    energy_flux := fun _ _ => 0 }

/-- The trailing VALID_QUANTITIES loop of from_table: read each known
quantity column of the converted table into the container data (a stored
is_ul column is ignored by every container accessor and is not
modelled).  The container meta of the source carries the table meta,
which no claim reads. -/
def containerOfTable (tb : Table) (m : SpectralModel) : FluxMaps :=
  { data :=
    { norm := (tb.get "norm").getD []
      norm_err := tb.get "norm_err"
      norm_errn := tb.get "norm_errn"
      norm_errp := tb.get "norm_errp"
      norm_ul := tb.get "norm_ul"
      ts := tb.get "ts"
      sqrt_ts := tb.get "sqrt_ts"
      npred := tb.get "npred"
      npred_excess := tb.get "npred_excess"
      npred_null := tb.get "npred_null"
      stat := tb.get "stat"
      stat_null := tb.get "stat_null"
      stat_scan := tb.get "stat_scan"
      niter := tb.get "niter"
      counts := tb.get "counts" }
    reference_model := some m
    axis := axisFromTable tb
    meta := {} }

/-- The SED-type string parse: the source indexes REQUIRED_COLUMNS by the
string and turns the KeyError into the Unknown-SED-type ValueError. -/
def parse_sed_type (s : String) : Option SedType :=
  sedTypeOrder.find? (fun t => t.name == s)

/-- Result of FluxPoints.from_table. -/
structure FromTableResult where
  container : FluxMaps
  warned : Bool

/-- FluxPoints.from_table: resolve the SED type (argument, then table
meta, then guess from the columns), validate the required columns, then
either migrate the legacy likelihood columns and store, or convert the
flux columns dividing by the reference factors — substituting the default
power-law model with a warning when none is given on the non-likelihood
path, and the tabulated template model on the likelihood path. -/
def from_table (tb : Table) (sed_type : Option String)
    (reference_model : Option SpectralModel) : Except String FromTableResult :=
  let st : Option String :=
    match sed_type with
    | some s => some s
    | none =>
      match tb.sed_type_meta with
      | some s => some s
      | none => (guess_sed_type tb.colnames).map SedType.name
  match st with
  | none => Except.error "Specifying the sed type is required"
  | some s =>
    match parse_sed_type s with
    | none => Except.error ("Unknown SED type: " ++ s)
    | some t =>
      if (REQUIRED_COLUMNS t).all (fun q => tb.colnames.contains q) then
        if t = SedType.likelihood then
          let tb2 := convert_loglike_columns tb
          let m := match reference_model with
            | some m => m
            | none => templateModel tb2
          Except.ok { container := containerOfTable tb2 m, warned := false }
        else
          let m := reference_model.getD reference_model_default
          Except.ok
            { container := containerOfTable (convert_flux_columns tb m t) m
              warned := reference_model.isNone }
      else Except.error ("Missing data / column for sed type " ++ s)

/-- FluxPointsEstimator.run, reduced to its per-bin loop: the per-bin
estimation (slice, count, fit — all delegated to external collaborators)
is abstracted as the row function; run pairs consecutive energy edges in
the order given (zip of edges[:-1] with edges[1:], the progress bar being
a passthrough) and assembles one row per adjacent pair.  The final
table_from_row_data / from_table step keeps the rows in list order. -/
def estimator_run {ρ : Type} (estimate : ℚ → ℚ → ρ) (energy_edges : List ℚ) :
    List ρ :=
  (List.zip energy_edges.dropLast energy_edges.tail).map (fun p => estimate p.1 p.2)

/-- pathlib suffixes of a file name: each dot-separated extension with
its leading dot (paths with directories are outside the claims). -/
def suffixesOf (filename : String) : List String :=
  ((filename.splitOn ".").drop 1).map (fun s => "." ++ s)

/-- The filename_model derivation of FluxMaps.write when no model path is
given.  The source iterates over the suffixes calling str.replace but
DISCARDS the returned string (Python strings are immutable and the result
is never assigned), so the name passes through the loop unchanged and
"_model.yaml" is appended to the full original filename. -/
def write_filename_model (filename : String) : String :=
  ((suffixesOf filename).foldl (fun name_string _suffix => name_string) filename)
    ++ "_model.yaml"

/-- Modelled from the spec: the DOCUMENTED derivation of the model
side-car path — the write docstring says "keep string before '.' and add
_model.yaml suffix", i.e. the known suffixes are stripped before
appending. -/
def write_filename_model_documented (filename : String) : String :=
  String.mk (filename.toList.takeWhile (fun ch => ch ≠ Char.ofNat 46))
    ++ "_model.yaml"

/-- The sqrt_ts formula exactly as the claim words it: sign(norm) *
sqrt(max(ts, 0)), elementwise — stated for comparison against the
source-derived sqrtTsData. -/
def sqrtTsClaimFormula (normv tsv : List FVal) : List FVal :=
  List.zipWith (fun n t => (FVal.signF n).mul ((t.maxF (FVal.num 0)).sqrtF)) normv tsv

/-- c2 reproduces c1: the same norm array, and every stored optional
norm-family or common quantity of c1 re-appears in c2 unchanged.  (The
stat_scan profile is treated separately: the likelihood export is the
only one that carries it.) -/
def Reproduces (c1 c2 : FluxMaps) : Prop :=
  c2.data.norm = c1.data.norm
  ∧ (∀ v, c1.data.norm_err = some v → c2.data.norm_err = some v)
  ∧ (∀ v, c1.data.norm_errn = some v → c2.data.norm_errn = some v)
  ∧ (∀ v, c1.data.norm_errp = some v → c2.data.norm_errp = some v)
  ∧ (∀ v, c1.data.norm_ul = some v → c2.data.norm_ul = some v)
  ∧ (∀ v, c1.data.ts = some v → c2.data.ts = some v)
  ∧ (∀ v, c1.data.sqrt_ts = some v → c2.data.sqrt_ts = some v)
  ∧ (∀ v, c1.data.npred = some v → c2.data.npred = some v)
  ∧ (∀ v, c1.data.npred_null = some v → c2.data.npred_null = some v)
  ∧ (∀ v, c1.data.stat = some v → c2.data.stat = some v)
  ∧ (∀ v, c1.data.stat_null = some v → c2.data.stat_null = some v)
  ∧ (∀ v, c1.data.niter = some v → c2.data.niter = some v)
  ∧ (∀ v, c1.data.counts = some v → c2.data.counts = some v)

/-- All stored norm-family arrays of the container fit the factor list
(the source arrays share one geometry, so the lengths agree; only an
upper bound is needed). -/
def LengthsFit (c : FluxMaps) (fs : List ℚ) : Prop :=
  c.data.norm.length ≤ fs.length
  ∧ (∀ v, c.data.norm_err = some v → v.length ≤ fs.length)
  ∧ (∀ v, c.data.norm_errn = some v → v.length ≤ fs.length)
  ∧ (∀ v, c.data.norm_errp = some v → v.length ≤ fs.length)
  ∧ (∀ v, c.data.norm_ul = some v → v.length ≤ fs.length)

/-- One-bin test axis: edges 1 and 10 TeV, center 3 TeV. -/
def axisOne : EnergyAxis := { edges := [1, 10], center := [3] }

/-- Two-bin test axis: edges 1, 10, 100 TeV (the end-to-end scenario
bins), centers 2 and 30 TeV. -/
def axisTwo : EnergyAxis := { edges := [1, 10, 100], center := [2, 30] }

/-- A test reference model with constant, nonzero capabilities (its
integral and energy-flux functions are trivially invertible). -/
def modelConst : SpectralModel :=
  { evaluate := fun _ => 2
    integral := fun _ _ => 3
    energy_flux := fun _ _ => 5 }

/-- A minimal container: only norm is stored. -/
def cBase : FluxMaps :=
  { data := { norm := [FVal.num 1] }
    reference_model := some modelConst
    axis := axisOne }

/-- Round-trip test container: norm with a NaN entry, a stored error, and
two common quantities. -/
def cWit : FluxMaps :=
  { data :=
    { norm := [FVal.num 6, FVal.nan]
      norm_err := some [FVal.num 4, FVal.num 0]
      ts := some [FVal.num 7, FVal.num 9]
      stat := some [FVal.num 1, FVal.num 2] }
    reference_model := some modelConst
    axis := axisTwo }

/-- Container storing a stat profile, used against the dnde export. -/
def cScan : FluxMaps :=
  { data := { norm := [FVal.num 1], stat_scan := some [FVal.num 5] }
    reference_model := some modelConst
    axis := axisOne }

/-- The end-to-end scenario container of the spec: norm 1.0 and 0.5 over
the bins 1-10 and 10-100 TeV with the default power-law model. -/
def cEnd : FluxMaps :=
  { data := { norm := [FVal.num 1, FVal.num (1/2)] }
    reference_model := some reference_model_default
    axis := axisTwo }

/-- Upper-limit policy container: ts 2 and 5 with norm_ul stored and the
default threshold 4. -/
def cUl1 : FluxMaps :=
  { data :=
    { norm := [FVal.num 1, FVal.num 1]
      ts := some [FVal.num 2, FVal.num 5]
      norm_ul := some [FVal.num 1, FVal.num 1] }
    reference_model := some modelConst
    axis := axisTwo }

/-- Upper-limit policy container: only norm_ul, with a NaN entry. -/
def cUl2 : FluxMaps :=
  { data :=
    { norm := [FVal.num 1, FVal.num 1]
      norm_ul := some [FVal.nan, FVal.num 3] }
    reference_model := some modelConst
    axis := axisTwo }

/-- sqrt_ts container: ts 4 and -1 with positive and negative norm. -/
def cSq : FluxMaps :=
  { data :=
    { norm := [FVal.num 1, FVal.num (-1)]
      ts := some [FVal.num 4, FVal.num (-1)] }
    reference_model := some modelConst
    axis := axisTwo }

/-- sqrt_ts container with norm exactly zero and ts 4. -/
def cZero : FluxMaps :=
  { data := { norm := [FVal.num 0], ts := some [FVal.num 4] }
    reference_model := some modelConst
    axis := axisOne }

/-- Likelihood-format table carrying only a legacy loglike column (value
10) and no stat column. -/
def tbLog : Table :=
  { cols :=
      [("e_min", [FVal.num 1]), ("e_max", [FVal.num 10]), ("e_ref", [FVal.num 3]),
       ("ref_dnde", [FVal.num 1]), ("ref_flux", [FVal.num 1]),
       ("ref_eflux", [FVal.num 1]), ("norm", [FVal.num 1]),
       ("loglike", [FVal.num 10])]
    sed_type_meta := some "likelihood" }

/-- A dnde table with no SED-type metadata and no reference model. -/
def tbDnde : Table :=
  { cols := [("e_ref", [FVal.num 2]), ("dnde", [FVal.num 8])]
    sed_type_meta := none }

/-- Maps input for the default-model substitution: a single dnde map. -/
def mapsWit : Maps :=
  { axis := axisOne, entries := [("dnde", [FVal.num 4])] }

/-- A table whose columns satisfy both the dnde and the e2dnde required
sets. -/
def tbAmb : Table :=
  { cols := [("e_ref", [FVal.num 1]), ("dnde", [FVal.num 1]), ("e2dnde", [FVal.num 1])]
    sed_type_meta := none }

/-- A table from which no SED type can be guessed. -/
def tbOpaque : Table :=
  { cols := [("intensity", [FVal.num 1])], sed_type_meta := none }

/-- The optional quantities that no accessor can derive from anything
else: absent from storage means the accessor fails. -/
def underived_quantities : List String :=
  ["norm_err", "norm_errn", "norm_errp", "norm_ul", "ts", "npred",
   "npred_null", "stat", "stat_null", "stat_scan", "niter", "counts"]

theorem toOption_checkQuantity (q : String) (o : Option (List FVal)) :
    (checkQuantity q o).toOption = o := by
  cases o <;> rfl

theorem foldl_const {α β : Type} (l : List α) (x : β) :
    l.foldl (fun a _ => a) x = x := by
  induction l generalizing x with
  | nil => rfl
  | cons a l ih => exact ih x

theorem lookupEntry_cons (p : String × List FVal) (es : List (String × List FVal))
    (q : String) :
    lookupEntry (p :: es) q =
      if p.1 = q then some p.2 else lookupEntry es q := by
  by_cases h : p.1 = q
  · simp [lookupEntry, List.find?_cons_of_pos, h]
  · simp [lookupEntry, List.find?_cons_of_neg, h]

theorem contains_eq_isSome_lookupEntry (es : List (String × List FVal)) (q : String) :
    (es.map (fun p => p.1)).contains q = (lookupEntry es q).isSome := by
  induction es with
  | nil => rfl
  | cons p es ih =>
    rw [List.map_cons, lookupEntry_cons]
    by_cases h : p.1 = q
    · simp [h]
    · simp only [List.contains_cons]
      rw [if_neg h, ← ih]
      have : (q == p.1) = false := by
        simp only [beq_eq_false_iff_ne, ne_eq]
        exact fun hq => h hq.symm
      simp [this]

theorem lookupEntry_toMapsEntries_none (c : FluxMaps) (qs : List String) (q : String)
    (h : (c.getQuantity q).toOption = none) :
    lookupEntry (toMapsEntries c qs) q = none := by
  induction qs with
  | nil => rfl
  | cons n ns ih =>
    rw [toMapsEntries, List.filterMap_cons]
    cases hn : (c.getQuantity n).toOption with
    | none => exact ih
    | some v =>
      show lookupEntry ((n, v) :: toMapsEntries c ns) q = none
      rw [lookupEntry_cons]
      by_cases hq : n = q
      · subst hq
        rw [hn] at h
        exact absurd h (by simp)
      · rw [if_neg hq]
        exact ih

theorem lookupEntry_toMapsEntries_some (c : FluxMaps) (qs : List String) (q : String)
    (v : List FVal) (hmem : q ∈ qs) (h : (c.getQuantity q).toOption = some v) :
    lookupEntry (toMapsEntries c qs) q = some v := by
  induction qs with
  | nil => exact absurd hmem (List.not_mem_nil q)
  | cons n ns ih =>
    rw [toMapsEntries, List.filterMap_cons]
    by_cases hq : n = q
    · subst hq
      rw [h]
      show lookupEntry ((n, v) :: toMapsEntries c ns) n = some v
      rw [lookupEntry_cons, if_pos rfl]
    · have hmem2 : q ∈ ns := by
        cases hmem with
        | head => exact absurd rfl hq
        | tail _ hm => exact hm
      cases hn : (c.getQuantity n).toOption with
      | none => exact ih hmem2
      | some w =>
        show lookupEntry ((n, w) :: toMapsEntries c ns) q = some v
        rw [lookupEntry_cons, if_neg hq]
        exact ih hmem2

theorem zip_dropLast_tail (l : List ℚ) :
    List.zip l.dropLast l.tail =
      (List.range (l.length - 1)).map (fun i => (l.getD i 0, l.getD (i + 1) 0)) := by
  induction l with
  | nil => rfl
  | cons a l ih =>
    cases l with
    | nil => rfl
    | cons b m =>
      have ih2 := ih
      simp only [List.dropLast_cons₂, List.tail_cons, List.zip_cons_cons] at *
      rw [ih2]
      simp only [List.length_cons, Nat.add_sub_cancel, List.range_succ_eq_map,
        List.map_cons, List.map_map]
      rfl

theorem lookupEntry_append (as bs : List (String × List FVal)) (q : String) :
    lookupEntry (as ++ bs) q =
      match lookupEntry as q with
      | some v => some v
      | none => lookupEntry bs q := by
  induction as with
  | nil => rfl
  | cons p es ih =>
    rw [List.cons_append, lookupEntry_cons, lookupEntry_cons]
    by_cases h : p.1 = q
    · simp [h]
    · simpa [h] using ih

theorem lookupEntry_map_set_same (es : List (String × List FVal)) (q : String)
    (v : List FVal) (hany : es.any (fun p => p.1 == q) = true) :
    lookupEntry (es.map (fun p => if p.1 == q then (q, v) else p)) q = some v := by
  induction es with
  | nil => simp at hany
  | cons r rs ih =>
    rw [List.map_cons]
    by_cases hr : r.1 = q
    · rw [if_pos (by simpa using hr), lookupEntry_cons, if_pos rfl]
    · rw [if_neg (by simpa using hr), lookupEntry_cons, if_neg hr]
      apply ih
      rw [List.any_cons] at hany
      simpa [hr] using hany

theorem lookupEntry_map_set_ne (es : List (String × List FVal)) (q : String)
    (v : List FVal) (q2 : String) (h : q ≠ q2) :
    lookupEntry (es.map (fun p => if p.1 == q then (q, v) else p)) q2 =
      lookupEntry es q2 := by
  induction es with
  | nil => rfl
  | cons r rs ih =>
    rw [List.map_cons]
    by_cases hr : r.1 = q
    · rw [if_pos (by simpa using hr), lookupEntry_cons, lookupEntry_cons, if_neg h]
      rw [if_neg (by rw [hr]; exact h)]
      exact ih
    · rw [if_neg (by simpa using hr), lookupEntry_cons, lookupEntry_cons]
      by_cases h2 : r.1 = q2
      · rw [if_pos h2, if_pos h2]
      · rw [if_neg h2, if_neg h2]
        exact ih

theorem get_set_same (tb : Table) (q : String) (v : List FVal) :
    (tb.set q v).get q = some v := by
  show lookupEntry (setEntry tb.cols q v) q = some v
  unfold setEntry
  by_cases h : tb.cols.any (fun p => p.1 == q)
  · rw [if_pos h]
    exact lookupEntry_map_set_same tb.cols q v h
  · rw [if_neg h, lookupEntry_append]
    have hnone : lookupEntry tb.cols q = none := by
      unfold lookupEntry
      rw [List.find?_eq_none.mpr (fun p hp hbeq =>
        h (List.any_eq_true.mpr ⟨p, hp, hbeq⟩))]
      rfl
    rw [hnone, lookupEntry_cons, if_pos rfl]

theorem get_set_ne (tb : Table) (q : String) (v : List FVal) (q2 : String)
    (h : q ≠ q2) : (tb.set q v).get q2 = tb.get q2 := by
  show lookupEntry (setEntry tb.cols q v) q2 = lookupEntry tb.cols q2
  unfold setEntry
  by_cases ha : tb.cols.any (fun p => p.1 == q)
  · rw [if_pos ha]
    exact lookupEntry_map_set_ne tb.cols q v q2 h
  · rw [if_neg ha, lookupEntry_append]
    cases hl : lookupEntry tb.cols q2 with
    | some w => rfl
    | none => rw [lookupEntry_cons, if_neg h]; rfl

/-- C9: the model side-car path derivation of FluxMaps.write.  The claim
(and the function docstring) says the known suffixes are stripped before
"_model.yaml" is appended; the code discards the str.replace results, so
at filename map.fits it produces map.fits_model.yaml while the documented
derivation produces map_model.yaml — the code contradicts its own
documentation. -/
theorem C9_write_filename_model_bug :
    write_filename_model "map.fits" = "map.fits_model.yaml"
    ∧ write_filename_model_documented "map.fits" = "map_model.yaml"
    ∧ write_filename_model "map.fits" ≠ write_filename_model_documented "map.fits" := by
  refine ⟨?_, ?_, ?_⟩
  · rw [write_filename_model, foldl_const]
    decide
  · decide
  · rw [write_filename_model, foldl_const]
    decide

/-- C8: FluxPointsEstimator.run over N+1 energy edges yields exactly N
rows, the i-th row estimated on the i-th adjacent edge pair, in the order
the edges were given; for edges 1, 3, 10 TeV exactly the two rows (1,3)
then (3,10). -/
theorem C8_estimator_run_ordering {ρ : Type} (estimate : ℚ → ℚ → ρ)
    (energy_edges : List ℚ) :
    (estimator_run estimate energy_edges).length = energy_edges.length - 1
    ∧ estimator_run estimate energy_edges =
        (List.range (energy_edges.length - 1)).map
          (fun i => estimate (energy_edges.getD i 0) (energy_edges.getD (i + 1) 0))
    ∧ estimator_run estimate [1, 3, 10] = [estimate 1 3, estimate 3 10] := by
  refine ⟨?_, ?_, ?_⟩
  · rw [estimator_run, List.length_map, List.length_zip, List.length_dropLast,
      List.length_tail]
    exact Nat.min_self _
  · rw [estimator_run, zip_dropLast_tail, List.map_map]
    rfl
  · rfl

/-- C3: the three-way is_ul precedence — with both ts and norm_ul stored
a bin is an upper limit iff ts < ts_threshold_ul; with only norm_ul
stored iff norm_ul is finite; otherwise iff norm is NaN; concretely ts
(2, 5) against the default threshold 4 gives (True, False), and norm_ul
(NaN, 3.0) with no ts gives (False, True). -/
theorem C3_is_ul_policy (c : FluxMaps) :
    (∀ tsv ulv, c.data.ts = some tsv → c.data.norm_ul = some ulv →
        c.is_ul = tsv.map (fun t => t.lt (FVal.num c.ts_threshold_ul)))
    ∧ (∀ ulv, c.data.ts = none → c.data.norm_ul = some ulv →
        c.is_ul = ulv.map FVal.isfinite)
    ∧ (c.data.norm_ul = none → c.is_ul = c.data.norm.map FVal.isnan)
    ∧ cUl1.is_ul = [true, false]
    ∧ cUl2.is_ul = [false, true] := by
  refine ⟨?_, ?_, ?_, ?_, ?_⟩
  · intro tsv ulv h1 h2
    simp [FluxMaps.is_ul, h1, h2]
  · intro ulv h1 h2
    simp [FluxMaps.is_ul, h1, h2]
  · intro h2
    cases h1 : c.data.ts <;> simp [FluxMaps.is_ul, h1, h2]
  · decide
  · decide

/-- Witness for C3 at the first concrete container: both ts and norm_ul
stored, threshold 4. -/
theorem C3_is_ul_policy_witness :
    cUl1.is_ul =
      (List.map (fun t => t.lt (FVal.num cUl1.ts_threshold_ul))
        [FVal.num 2, FVal.num 5]) :=
  (C3_is_ul_policy cUl1).1 [FVal.num 2, FVal.num 5] [FVal.num 1, FVal.num 1] rfl rfl

/-- C4 counterexample: at norm = 0, ts = 4 (sqrt_ts not stored) the code
yields -sqrt(4) = -2 whereas the claimed formula sign(norm) *
sqrt(max(ts, 0)) yields 0. -/
theorem C4_counterexample :
    cZero.sqrt_ts = Except.ok [FVal.num (-2)]
    ∧ sqrtTsClaimFormula cZero.data.norm [FVal.num 4] = [FVal.num 0]
    ∧ FVal.num (-2) ≠ FVal.num 0 := by
  have h4 : ratSqrt 4 = 2 := by
    rw [ratSqrt]
    norm_num [natSqrt, natSqrtBelow]
  have hsq : (FVal.num 4).sqrtF = FVal.num 2 := by
    rw [FVal.sqrtF, if_neg (by norm_num), h4]
  refine ⟨?_, ?_, by norm_num⟩
  · show Except.ok (FluxMaps.sqrtTsData [FVal.num 0] [FVal.num 4]) = _
    simp [FluxMaps.sqrtTsData, hsq, FVal.lt, FVal.neg]
  · simp [sqrtTsClaimFormula, cZero, FVal.signF, FVal.maxF, hsq, FVal.mul]

/-- C4 (amended): for every container that stores ts but not sqrt_ts, the
accessor succeeds (no exception) with the per-bin value sqrt(ts) where
norm > 0 and -sqrt(ts) otherwise, and the per-bin value is NaN wherever
ts is negative. -/
theorem C4_sqrt_ts_derived (c : FluxMaps) (tsv : List FVal)
    (hs : c.data.sqrt_ts = none) (ht : c.data.ts = some tsv) :
    c.sqrt_ts = Except.ok (FluxMaps.sqrtTsData c.data.norm tsv)
    ∧ (∀ (n : FVal) (q : ℚ), q < 0 →
        FluxMaps.sqrtTsData [n] [FVal.num q] = [FVal.nan]) := by
  constructor
  · simp [FluxMaps.sqrt_ts, hs, ht]
  · intro n q hq
    simp only [FluxMaps.sqrtTsData, List.zipWith_cons_cons, List.zipWith_nil_right]
    rw [show (FVal.num q).sqrtF = FVal.nan by simp [FVal.sqrtF, hq]]
    split <;> rfl

/-- Witness for C4 at a container with ts stored (values 4 and -1) and
sqrt_ts absent. -/
theorem C4_sqrt_ts_derived_witness :
    cSq.sqrt_ts =
      Except.ok (FluxMaps.sqrtTsData cSq.data.norm [FVal.num 4, FVal.num (-1)]) :=
  (C4_sqrt_ts_derived cSq [FVal.num 4, FVal.num (-1)] rfl rfl).1

set_option maxHeartbeats 2000000 in
/-- C5: for each optional quantity that is not derivable, the accessor on
a container lacking it fails with the quantity-not-defined attribute
error (it does not return a value), and on a container storing it returns
exactly the stored value. -/
theorem C5_missing_quantity (c : FluxMaps) (q : String)
    (hq : q ∈ underived_quantities) :
    (c.data.lookup q = none → c.getQuantity q = Except.error (quantityErr q))
    ∧ (∀ v, c.data.lookup q = some v → c.getQuantity q = Except.ok v) := by
  simp only [underived_quantities, List.mem_cons, List.not_mem_nil, or_false] at hq
  rcases hq with rfl | rfl | rfl | rfl | rfl | rfl | rfl | rfl | rfl | rfl | rfl | rfl <;>
    refine ⟨fun h => ?_, fun v h => ?_⟩ <;>
    (simp only [FluxData.lookup] at h
     simp [FluxMaps.getQuantity, checkQuantity, FluxMaps.norm_err,
       FluxMaps.norm_errn, FluxMaps.norm_errp, FluxMaps.norm_ul,
       FluxMaps.ts, FluxMaps.npred, FluxMaps.npred_null, FluxMaps.stat,
       FluxMaps.stat_null, FluxMaps.stat_scan, FluxMaps.niter,
       FluxMaps.counts, h])

/-- Witness for C5: the npred accessor on a container lacking npred. -/
theorem C5_missing_quantity_witness :
    (cBase.data.lookup "npred" = none →
      cBase.getQuantity "npred" = Except.error (quantityErr "npred"))
    ∧ (∀ v, cBase.data.lookup "npred" = some v →
        cBase.getQuantity "npred" = Except.ok v) :=
  C5_missing_quantity cBase "npred" (by decide)

theorem contains_colnames (tb : Table) (q : String) :
    tb.colnames.contains q = (tb.get q).isSome :=
  contains_eq_isSome_lookupEntry tb.cols q

theorem get_migrate_other (tb : Table) (legacy canon q : String) (h : canon ≠ q) :
    (migrate_col tb legacy canon).get q = tb.get q := by
  rw [migrate_col]
  split
  · exact get_set_ne tb canon _ q h
  · rfl

theorem contains_migrate_other (tb : Table) (legacy canon q : String)
    (h : canon ≠ q) :
    (migrate_col tb legacy canon).colnames.contains q = tb.colnames.contains q := by
  rw [contains_colnames, contains_colnames, get_migrate_other tb legacy canon q h]

theorem get_migrate_applied (tb : Table) (legacy canon : String)
    (h1 : tb.colnames.contains legacy = true)
    (h2 : tb.colnames.contains canon = false) :
    (migrate_col tb legacy canon).get canon =
      some (doubleVals ((tb.get legacy).getD [])) := by
  rw [migrate_col, if_pos (by rw [h1, h2]; rfl)]
  exact get_set_same tb canon _

theorem get_migrate_kept (tb : Table) (legacy canon : String)
    (h : tb.colnames.contains canon = true) :
    (migrate_col tb legacy canon).get canon = tb.get canon := by
  have hc : (tb.colnames.contains legacy && !(tb.colnames.contains canon)) = false := by
    rw [h]
    simp
  rw [migrate_col, hc]
  rfl

/-- C6: on table read, loglike, loglike_null and dloglike_scan are each
migrated to stat, stat_null and stat_scan multiplied by 2, each only when
the canonical column is absent (an existing canonical column is never
overwritten); a table with only loglike = 10 and no stat column yields
stat = 20 after construction. -/
theorem C6_loglike_migration (tb : Table) :
    (tb.colnames.contains "loglike" = true → tb.colnames.contains "stat" = false →
      (convert_loglike_columns tb).get "stat" =
        some (doubleVals ((tb.get "loglike").getD [])))
    ∧ (tb.colnames.contains "stat" = true →
        (convert_loglike_columns tb).get "stat" = tb.get "stat")
    ∧ (tb.colnames.contains "loglike_null" = true →
        tb.colnames.contains "stat_null" = false →
        (convert_loglike_columns tb).get "stat_null" =
          some (doubleVals ((tb.get "loglike_null").getD [])))
    ∧ (tb.colnames.contains "stat_null" = true →
        (convert_loglike_columns tb).get "stat_null" = tb.get "stat_null")
    ∧ (tb.colnames.contains "dloglike_scan" = true →
        tb.colnames.contains "stat_scan" = false →
        (convert_loglike_columns tb).get "stat_scan" =
          some (doubleVals ((tb.get "dloglike_scan").getD [])))
    ∧ (tb.colnames.contains "stat_scan" = true →
        (convert_loglike_columns tb).get "stat_scan" = tb.get "stat_scan")
    ∧ (from_table tbLog none none).map (fun r => r.container.data.stat) =
        Except.ok (some [FVal.num 20]) := by
  refine ⟨?_, ?_, ?_, ?_, ?_, ?_, ?_⟩
  · intro h1 h2
    rw [convert_loglike_columns,
      get_migrate_other _ _ _ _ (by decide),
      get_migrate_other _ _ _ _ (by decide)]
    exact get_migrate_applied tb _ _ h1 h2
  · intro h
    rw [convert_loglike_columns,
      get_migrate_other _ _ _ _ (by decide),
      get_migrate_other _ _ _ _ (by decide)]
    exact get_migrate_kept tb _ _ h
  · intro h1 h2
    have ha : (migrate_col tb "loglike" "stat").colnames.contains "loglike_null" = true := by
      rw [contains_migrate_other _ _ _ _ (by decide)]
      exact h1
    have hb : (migrate_col tb "loglike" "stat").colnames.contains "stat_null" = false := by
      rw [contains_migrate_other _ _ _ _ (by decide)]
      exact h2
    rw [convert_loglike_columns,
      get_migrate_other _ _ _ _ (by decide),
      get_migrate_applied _ _ _ ha hb,
      get_migrate_other _ _ _ _ (by decide)]
  · intro h
    have ha : (migrate_col tb "loglike" "stat").colnames.contains "stat_null" = true := by
      rw [contains_migrate_other _ _ _ _ (by decide)]
      exact h
    rw [convert_loglike_columns,
      get_migrate_other _ _ _ _ (by decide),
      get_migrate_kept _ _ _ ha,
      get_migrate_other _ _ _ _ (by decide)]
  · intro h1 h2
    have ha : (migrate_col (migrate_col tb "loglike" "stat") "loglike_null"
        "stat_null").colnames.contains "dloglike_scan" = true := by
      rw [contains_migrate_other _ _ _ _ (by decide),
        contains_migrate_other _ _ _ _ (by decide)]
      exact h1
    have hb : (migrate_col (migrate_col tb "loglike" "stat") "loglike_null"
        "stat_null").colnames.contains "stat_scan" = false := by
      rw [contains_migrate_other _ _ _ _ (by decide),
        contains_migrate_other _ _ _ _ (by decide)]
      exact h2
    rw [convert_loglike_columns, get_migrate_applied _ _ _ ha hb,
      get_migrate_other _ _ _ _ (by decide),
      get_migrate_other _ _ _ _ (by decide)]
  · intro h
    have ha : (migrate_col (migrate_col tb "loglike" "stat") "loglike_null"
        "stat_null").colnames.contains "stat_scan" = true := by
      rw [contains_migrate_other _ _ _ _ (by decide),
        contains_migrate_other _ _ _ _ (by decide)]
      exact h
    rw [convert_loglike_columns, get_migrate_kept _ _ _ ha,
      get_migrate_other _ _ _ _ (by decide),
      get_migrate_other _ _ _ _ (by decide)]
  · have hst : (convert_loglike_columns tbLog).get "stat" = some [FVal.num 20] := by
      rw [convert_loglike_columns,
        get_migrate_other _ _ _ _ (by decide),
        get_migrate_other _ _ _ _ (by decide),
        get_migrate_applied tbLog _ _ (by decide) (by decide)]
      have : tbLog.get "loglike" = some [FVal.num 10] := rfl
      rw [this]
      show some (doubleVals [FVal.num 10]) = _
      simp [doubleVals, FVal.mul]
      norm_num
    have hrun : (from_table tbLog none none).map (fun r => r.container.data.stat) =
        Except.ok ((convert_loglike_columns tbLog).get "stat") := rfl
    rw [hrun, hst]

/-- Witness for C6 on the concrete legacy table. -/
theorem C6_loglike_migration_witness :
    (convert_loglike_columns tbLog).get "stat" =
      some (doubleVals ((tbLog.get "loglike").getD [])) :=
  (C6_loglike_migration tbLog).1 (by decide) (by decide)

/-- C10: when no SED type is given and none is in the table meta, the
guessed type is the first of dnde, e2dnde, flux, eflux, likelihood whose
required columns are all present — a table matching several types gets the
earliest — and when no type matches, construction fails with the
sed-type-required error. -/
theorem C10_guess_precedence (names : List String) (tb : Table) :
    ((REQUIRED_COLUMNS SedType.dnde).all (fun q => names.contains q) = true →
        guess_sed_type names = some SedType.dnde)
    ∧ ((REQUIRED_COLUMNS SedType.dnde).all (fun q => names.contains q) = false →
        (REQUIRED_COLUMNS SedType.e2dnde).all (fun q => names.contains q) = true →
        guess_sed_type names = some SedType.e2dnde)
    ∧ ((REQUIRED_COLUMNS SedType.dnde).all (fun q => names.contains q) = false →
        (REQUIRED_COLUMNS SedType.e2dnde).all (fun q => names.contains q) = false →
        (REQUIRED_COLUMNS SedType.flux).all (fun q => names.contains q) = true →
        guess_sed_type names = some SedType.flux)
    ∧ ((REQUIRED_COLUMNS SedType.dnde).all (fun q => names.contains q) = false →
        (REQUIRED_COLUMNS SedType.e2dnde).all (fun q => names.contains q) = false →
        (REQUIRED_COLUMNS SedType.flux).all (fun q => names.contains q) = false →
        (REQUIRED_COLUMNS SedType.eflux).all (fun q => names.contains q) = true →
        guess_sed_type names = some SedType.eflux)
    ∧ ((REQUIRED_COLUMNS SedType.dnde).all (fun q => names.contains q) = false →
        (REQUIRED_COLUMNS SedType.e2dnde).all (fun q => names.contains q) = false →
        (REQUIRED_COLUMNS SedType.flux).all (fun q => names.contains q) = false →
        (REQUIRED_COLUMNS SedType.eflux).all (fun q => names.contains q) = false →
        (REQUIRED_COLUMNS SedType.likelihood).all (fun q => names.contains q) = true →
        guess_sed_type names = some SedType.likelihood)
    ∧ ((∀ t : SedType, (REQUIRED_COLUMNS t).all (fun q => names.contains q) = false) →
        guess_sed_type names = none)
    ∧ (tb.sed_type_meta = none → guess_sed_type tb.colnames = none →
        from_table tb none none = Except.error "Specifying the sed type is required")
    ∧ guess_sed_type ["e_ref", "dnde", "e2dnde"] = some SedType.dnde := by
  refine ⟨?_, ?_, ?_, ?_, ?_, ?_, ?_, ?_⟩
  · intro h1
    simp only [guess_sed_type, sedTypeOrder, List.find?, h1]
  · intro h1 h2
    simp only [guess_sed_type, sedTypeOrder, List.find?, h1, h2]
  · intro h1 h2 h3
    simp only [guess_sed_type, sedTypeOrder, List.find?, h1, h2, h3]
  · intro h1 h2 h3 h4
    simp only [guess_sed_type, sedTypeOrder, List.find?, h1, h2, h3, h4]
  · intro h1 h2 h3 h4 h5
    simp only [guess_sed_type, sedTypeOrder, List.find?, h1, h2, h3, h4, h5]
  · intro h
    rw [guess_sed_type]
    exact List.find?_eq_none.mpr (fun x _ => by simpa using h x)
  · intro h1 h2
    simp [from_table, h1, h2]
  · decide

/-- Witness for C10: a table with no metadata and unguessable columns
fails with the sed-type-required error. -/
theorem C10_guess_precedence_witness :
    from_table tbOpaque none none =
      Except.error "Specifying the sed type is required" :=
  (C10_guess_precedence [] tbOpaque).2.2.2.2.2.2.1 rfl (by decide)

theorem parse_sed_type_name (t : SedType) : parse_sed_type t.name = some t := by
  cases t <;> rfl

theorem get_norm_convert_flux (tb : Table) (m : SpectralModel) (t : SedType) :
    (convert_flux_columns tb m t).get "norm" =
      some (divBy ((tb.get t.name).getD []) (tableReferenceFluxes m tb t)) := by
  show lookupEntry _ "norm" = _
  rw [convert_flux_columns]
  have hP : lookupEntry
      (["e_ref", "e_min", "e_max"].filterMap
        (fun q => (tb.get q).map (fun v => (q, v)))) "norm" = none := by
    cases h1 : tb.get "e_ref" <;> cases h2 : tb.get "e_min" <;>
      cases h3 : tb.get "e_max" <;>
      simp [List.filterMap_cons, h1, h2, h3, lookupEntry_cons,
        show lookupEntry [] "norm" = none from rfl]
  rw [lookupEntry_append, lookupEntry_append, hP]
  simp [lookupEntry_cons]

/-- C7: a non-likelihood construction with no reference model does not
fail: from_maps and from_table both substitute the default point-source
power-law (index 2) model, emit the warning log, and produce norm equal
to the input quantity divided by the default model reference flux
factor. -/
theorem C7_default_model (maps : Maps) (tb : Table) (t : SedType) (meta : MetaData)
    (ht : t ≠ SedType.likelihood)
    (hmap : validate_data (mapNames maps) t = true)
    (htb : (REQUIRED_COLUMNS t).all (fun q => tb.colnames.contains q) = true) :
    (from_maps maps (some t) none meta =
        Except.ok
          { container := from_maps_converted maps t reference_model_default meta
            warned := true }
      ∧ (from_maps_converted maps t reference_model_default meta).data.norm =
          divBy ((lookupEntry maps.entries t.name).getD [])
            (referenceFluxes reference_model_default maps.axis t)
      ∧ (from_maps_converted maps t reference_model_default meta).reference_model =
          some reference_model_default)
    ∧ (from_table tb (some t.name) none =
        Except.ok
          { container :=
              containerOfTable (convert_flux_columns tb reference_model_default t)
                reference_model_default
            warned := true }
      ∧ (containerOfTable (convert_flux_columns tb reference_model_default t)
            reference_model_default).data.norm =
          divBy ((tb.get t.name).getD [])
            (tableReferenceFluxes reference_model_default tb t)
      ∧ (containerOfTable (convert_flux_columns tb reference_model_default t)
            reference_model_default).reference_model =
          some reference_model_default) := by
  refine ⟨⟨?_, rfl, rfl⟩, ⟨?_, ?_, rfl⟩⟩
  · simp [from_maps, hmap, ht]
  · simp [from_table, parse_sed_type_name, ht]
    simpa using htb
  · show ((convert_flux_columns tb reference_model_default t).get "norm").getD [] = _
    rw [get_norm_convert_flux]
    rfl

/-- Witness for C7: a dnde map with no reference model round-trips
through from_maps with the default model substituted and the warning
emitted. -/
theorem C7_default_model_witness :
    from_maps mapsWit (some SedType.dnde) none {} =
      Except.ok
        { container := from_maps_converted mapsWit SedType.dnde reference_model_default {}
          warned := true } :=
  ((C7_default_model mapsWit tbDnde SedType.dnde {} (by decide) (by decide)
    (by decide)).1).1

/-- C2: every derived flux quantity equals the stored norm-family
quantity times the representation-specific reference-flux factor — dnde
from the model at the reference energies, e2dnde with the extra square of
the energy, flux from the bin integrals, eflux from the bin energy
fluxes, and the _err/_errn/_errp/_ul variants from the matching norm
sibling with the same factor; concretely, for norm (1.0, 0.5) over the
bins 1-10 and 10-100 TeV with the default index-2 power law, the first
flux entry is norm[0] times the model integral over 1-10 TeV, which
equals 9e-13. -/
theorem C2_derived_quantities (c : FluxMaps) (m : SpectralModel)
    (hm : c.reference_model = some m) :
    (c.dnde = scaleBy c.norm (c.energy_ref.map m.evaluate)
     ∧ c.e2dnde = scaleBy c.norm (c.energy_ref.map (fun e => m.evaluate e * e ^ 2))
     ∧ c.flux = scaleBy c.norm (List.zipWith m.integral c.energy_min c.energy_max)
     ∧ c.eflux = scaleBy c.norm (List.zipWith m.energy_flux c.energy_min c.energy_max))
    ∧ (∀ v, c.data.norm_err = some v →
        c.dnde_err = Except.ok (scaleBy v c.dnde_ref)
        ∧ c.e2dnde_err = Except.ok (scaleBy v c.e2dnde_ref)
        ∧ c.flux_err = Except.ok (scaleBy v c.flux_ref)
        ∧ c.eflux_err = Except.ok (scaleBy v c.eflux_ref))
    ∧ (∀ v, c.data.norm_errn = some v →
        c.dnde_errn = Except.ok (scaleBy v c.dnde_ref)
        ∧ c.e2dnde_errn = Except.ok (scaleBy v c.e2dnde_ref)
        ∧ c.flux_errn = Except.ok (scaleBy v c.flux_ref)
        ∧ c.eflux_errn = Except.ok (scaleBy v c.eflux_ref))
    ∧ (∀ v, c.data.norm_errp = some v →
        c.dnde_errp = Except.ok (scaleBy v c.dnde_ref)
        ∧ c.e2dnde_errp = Except.ok (scaleBy v c.e2dnde_ref)
        ∧ c.flux_errp = Except.ok (scaleBy v c.flux_ref)
        ∧ c.eflux_errp = Except.ok (scaleBy v c.eflux_ref))
    ∧ (∀ v, c.data.norm_ul = some v →
        c.dnde_ul = Except.ok (scaleBy v c.dnde_ref)
        ∧ c.e2dnde_ul = Except.ok (scaleBy v c.e2dnde_ref)
        ∧ c.flux_ul = Except.ok (scaleBy v c.flux_ref)
        ∧ c.eflux_ul = Except.ok (scaleBy v c.eflux_ref))
    ∧ cEnd.flux.get? 0 =
        some ((FVal.num 1).mul (FVal.num (reference_model_default.integral 1 10)))
    ∧ reference_model_default.integral 1 10 = 9 / 10 ^ 13 := by
  refine ⟨⟨?_, ?_, ?_, ?_⟩, ?_, ?_, ?_, ?_, ?_, ?_⟩
  · simp [FluxMaps.dnde, FluxMaps.dnde_ref, hm]
  · simp [FluxMaps.e2dnde, FluxMaps.e2dnde_ref, hm]
  · simp [FluxMaps.flux, FluxMaps.flux_ref, hm]
  · simp [FluxMaps.eflux, FluxMaps.eflux_ref, hm]
  · intro v h
    refine ⟨?_, ?_, ?_, ?_⟩ <;>
      simp [FluxMaps.dnde_err, FluxMaps.e2dnde_err, FluxMaps.flux_err,
        FluxMaps.eflux_err, FluxMaps.norm_err, checkQuantity, h, Except.map]
  · intro v h
    refine ⟨?_, ?_, ?_, ?_⟩ <;>
      simp [FluxMaps.dnde_errn, FluxMaps.e2dnde_errn, FluxMaps.flux_errn,
        FluxMaps.eflux_errn, FluxMaps.norm_errn, checkQuantity, h, Except.map]
  · intro v h
    refine ⟨?_, ?_, ?_, ?_⟩ <;>
      simp [FluxMaps.dnde_errp, FluxMaps.e2dnde_errp, FluxMaps.flux_errp,
        FluxMaps.eflux_errp, FluxMaps.norm_errp, checkQuantity, h, Except.map]
  · intro v h
    refine ⟨?_, ?_, ?_, ?_⟩ <;>
      simp [FluxMaps.dnde_ul, FluxMaps.e2dnde_ul, FluxMaps.flux_ul,
        FluxMaps.eflux_ul, FluxMaps.norm_ul, checkQuantity, h, Except.map]
  · rfl
  · show (1 / 10 ^ 12 : ℚ) * (1 / 1 - 1 / 10) = 9 / 10 ^ 13
    norm_num

/-- Witness for C2 on the end-to-end container with the default model. -/
theorem C2_derived_quantities_witness :
    cEnd.dnde = scaleBy cEnd.norm (cEnd.energy_ref.map reference_model_default.evaluate) :=
  ((C2_derived_quantities cEnd reference_model_default rfl).1).1

theorem getQ_norm_err (c : FluxMaps) :
    (c.getQuantity "norm_err").toOption = c.data.norm_err :=
  toOption_checkQuantity "norm_err" c.data.norm_err

theorem getQ_norm_errn (c : FluxMaps) :
    (c.getQuantity "norm_errn").toOption = c.data.norm_errn :=
  toOption_checkQuantity "norm_errn" c.data.norm_errn

theorem getQ_norm_errp (c : FluxMaps) :
    (c.getQuantity "norm_errp").toOption = c.data.norm_errp :=
  toOption_checkQuantity "norm_errp" c.data.norm_errp

theorem getQ_norm_ul (c : FluxMaps) :
    (c.getQuantity "norm_ul").toOption = c.data.norm_ul :=
  toOption_checkQuantity "norm_ul" c.data.norm_ul

theorem getQ_ts (c : FluxMaps) : (c.getQuantity "ts").toOption = c.data.ts :=
  toOption_checkQuantity "ts" c.data.ts

theorem getQ_npred (c : FluxMaps) :
    (c.getQuantity "npred").toOption = c.data.npred :=
  toOption_checkQuantity "npred" c.data.npred

theorem getQ_npred_null (c : FluxMaps) :
    (c.getQuantity "npred_null").toOption = c.data.npred_null :=
  toOption_checkQuantity "npred_null" c.data.npred_null

theorem getQ_stat (c : FluxMaps) : (c.getQuantity "stat").toOption = c.data.stat :=
  toOption_checkQuantity "stat" c.data.stat

theorem getQ_stat_null (c : FluxMaps) :
    (c.getQuantity "stat_null").toOption = c.data.stat_null :=
  toOption_checkQuantity "stat_null" c.data.stat_null

theorem getQ_stat_scan (c : FluxMaps) :
    (c.getQuantity "stat_scan").toOption = c.data.stat_scan :=
  toOption_checkQuantity "stat_scan" c.data.stat_scan

theorem getQ_niter (c : FluxMaps) :
    (c.getQuantity "niter").toOption = c.data.niter :=
  toOption_checkQuantity "niter" c.data.niter

theorem getQ_counts (c : FluxMaps) :
    (c.getQuantity "counts").toOption = c.data.counts :=
  toOption_checkQuantity "counts" c.data.counts

theorem getQ_sqrt_ts_stored (c : FluxMaps) (v : List FVal)
    (h : c.data.sqrt_ts = some v) :
    (c.getQuantity "sqrt_ts").toOption = some v := by
  show (c.sqrt_ts).toOption = some v
  simp [FluxMaps.sqrt_ts, h, Except.toOption]

theorem required_maps_eq (t : SedType) (ht : t ≠ SedType.likelihood) :
    REQUIRED_MAPS t = [t.name] := by
  cases t <;> first | rfl | exact absurd rfl ht

theorem mem_common_all (q : String) (hq : q ∈ OPTIONAL_QUANTITIES_COMMON)
    (t : SedType) : q ∈ all_quantities t := by
  rw [all_quantities]
  exact List.mem_append_left _ (List.mem_append_right _ hq)

theorem mem_main_all (t : SedType) (ht : t ≠ SedType.likelihood) :
    t.name ∈ all_quantities t := by
  rw [all_quantities]
  refine List.mem_append_left _ (List.mem_append_left _ (List.mem_append_left _ ?_))
  rw [required_maps_eq t ht]
  exact List.mem_singleton_self _

theorem mem_opt_all (t : SedType) (ht : t ≠ SedType.likelihood) (suf : String)
    (hs : suf ∈ optionalSuffixes) : (t.name ++ suf) ∈ all_quantities t := by
  rw [all_quantities]
  refine List.mem_append_left _ (List.mem_append_left _ (List.mem_append_right _ ?_))
  cases t <;> first
    | exact absurd rfl ht
    | exact List.mem_map_of_mem _ hs

set_option maxHeartbeats 2000000 in
theorem getQuantity_main (c : FluxMaps) (m : SpectralModel) (t : SedType)
    (hm : c.reference_model = some m) (ht : t ≠ SedType.likelihood) :
    c.getQuantity t.name =
      Except.ok (scaleBy c.norm (referenceFluxes m c.axis t)) := by
  cases t <;> first
    | exact absurd rfl ht
    | simp [FluxMaps.getQuantity, SedType.name, FluxMaps.dnde, FluxMaps.e2dnde,
        FluxMaps.flux, FluxMaps.eflux, FluxMaps.dnde_ref, FluxMaps.e2dnde_ref,
        FluxMaps.flux_ref, FluxMaps.eflux_ref, referenceFluxes, hm,
        FluxMaps.energy_ref, FluxMaps.energy_min, FluxMaps.energy_max]

set_option maxHeartbeats 4000000 in
theorem getQuantity_opt (c : FluxMaps) (m : SpectralModel) (t : SedType)
    (hm : c.reference_model = some m) (ht : t ≠ SedType.likelihood)
    (suf : String) (hs : suf ∈ optionalSuffixes) (v : List FVal)
    (hv : c.data.lookup ("norm" ++ suf) = some v) :
    c.getQuantity (t.name ++ suf) =
      Except.ok (scaleBy v (referenceFluxes m c.axis t)) := by
  simp only [optionalSuffixes, List.mem_cons, List.not_mem_nil, or_false] at hs
  rcases hs with rfl | rfl | rfl | rfl <;>
    simp [FluxData.lookup] at hv <;>
    cases t <;> first
      | exact absurd rfl ht
      | simp [FluxMaps.getQuantity, SedType.name, FluxMaps.dnde_err,
          FluxMaps.dnde_errn, FluxMaps.dnde_errp, FluxMaps.dnde_ul,
          FluxMaps.e2dnde_err, FluxMaps.e2dnde_errn, FluxMaps.e2dnde_errp,
          FluxMaps.e2dnde_ul, FluxMaps.flux_err, FluxMaps.flux_errn,
          FluxMaps.flux_errp, FluxMaps.flux_ul, FluxMaps.eflux_err,
          FluxMaps.eflux_errn, FluxMaps.eflux_errp, FluxMaps.eflux_ul,
          FluxMaps.norm_err, FluxMaps.norm_errn, FluxMaps.norm_errp,
          FluxMaps.norm_ul, checkQuantity, hv, Except.map, hm,
          FluxMaps.dnde_ref, FluxMaps.e2dnde_ref, FluxMaps.flux_ref,
          FluxMaps.eflux_ref, referenceFluxes, FluxMaps.energy_ref,
          FluxMaps.energy_min, FluxMaps.energy_max]

set_option maxHeartbeats 2000000 in
/-- C1 (amended): rebuilding a container as from_maps(to_maps(c, t), t)
with the same reference model succeeds for every SED type t and
reproduces the norm array exactly, together with every stored optional
quantity that the chosen SED type exports — the error and upper-limit
variants and the common optional quantities; the stat profile
(stat_scan) is carried only by the likelihood export. -/
theorem C1_roundtrip (c : FluxMaps) (m : SpectralModel) (t : SedType)
    (meta : MetaData) (hm : c.reference_model = some m)
    (hf : ∀ f ∈ referenceFluxes m c.axis t, f ≠ 0)
    (hl : LengthsFit c (referenceFluxes m c.axis t)) :
    ∃ r, from_maps (to_maps c t) (some t) (some m) meta = Except.ok r
      ∧ Reproduces c r.container
      ∧ (t = SedType.likelihood →
          ∀ v, c.data.stat_scan = some v → r.container.data.stat_scan = some v) := by
  obtain ⟨hlen, hlerr, hlerrn, hlerrp, hlul⟩ := hl
  by_cases htl : t = SedType.likelihood
  · subst htl
    have hnorm : lookupEntry (toMapsEntries c (all_quantities SedType.likelihood))
        "norm" = some c.norm :=
      lookupEntry_toMapsEntries_some c _ "norm" c.norm (by decide) rfl
    have hval : validate_data (mapNames (to_maps c SedType.likelihood))
        SedType.likelihood = true := by
      have hc : (mapNames (to_maps c SedType.likelihood)).contains "norm" = true := by
        rw [show mapNames (to_maps c SedType.likelihood) =
              (toMapsEntries c (all_quantities SedType.likelihood)).map (fun p => p.1)
            from rfl,
          contains_eq_isSome_lookupEntry, hnorm]
        rfl
      simp only [validate_data, REQUIRED_MAPS, List.all_cons, List.all_nil, hc,
        Bool.and_true]
    refine ⟨⟨from_maps_likelihood (to_maps c SedType.likelihood) (some m) meta,
      false⟩, ?_, ?_, ?_⟩
    · simp [from_maps, hval]
    · refine ⟨?_, ?_, ?_, ?_, ?_, ?_, ?_, ?_, ?_, ?_, ?_, ?_, ?_⟩
      · show (lookupEntry (toMapsEntries c (all_quantities SedType.likelihood))
            "norm").getD [] = c.data.norm
        rw [hnorm]
        rfl
      · intro v hv
        exact lookupEntry_toMapsEntries_some c _ "norm_err" v (by decide)
          (by rw [getQ_norm_err, hv])
      · intro v hv
        exact lookupEntry_toMapsEntries_some c _ "norm_errn" v (by decide)
          (by rw [getQ_norm_errn, hv])
      · intro v hv
        exact lookupEntry_toMapsEntries_some c _ "norm_errp" v (by decide)
          (by rw [getQ_norm_errp, hv])
      · intro v hv
        exact lookupEntry_toMapsEntries_some c _ "norm_ul" v (by decide)
          (by rw [getQ_norm_ul, hv])
      · intro v hv
        exact lookupEntry_toMapsEntries_some c _ "ts" v (by decide)
          (by rw [getQ_ts, hv])
      · intro v hv
        exact lookupEntry_toMapsEntries_some c _ "sqrt_ts" v (by decide)
          (getQ_sqrt_ts_stored c v hv)
      · intro v hv
        exact lookupEntry_toMapsEntries_some c _ "npred" v (by decide)
          (by rw [getQ_npred, hv])
      · intro v hv
        exact lookupEntry_toMapsEntries_some c _ "npred_null" v (by decide)
          (by rw [getQ_npred_null, hv])
      · intro v hv
        exact lookupEntry_toMapsEntries_some c _ "stat" v (by decide)
          (by rw [getQ_stat, hv])
      · intro v hv
        exact lookupEntry_toMapsEntries_some c _ "stat_null" v (by decide)
          (by rw [getQ_stat_null, hv])
      · intro v hv
        exact lookupEntry_toMapsEntries_some c _ "niter" v (by decide)
          (by rw [getQ_niter, hv])
      · intro v hv
        exact lookupEntry_toMapsEntries_some c _ "counts" v (by decide)
          (by rw [getQ_counts, hv])
    · intro _ v hv
      exact lookupEntry_toMapsEntries_some c _ "stat_scan" v (by decide)
        (by rw [getQ_stat_scan, hv])
  · have hmain : lookupEntry (toMapsEntries c (all_quantities t)) t.name
        = some (scaleBy c.norm (referenceFluxes m c.axis t)) :=
      lookupEntry_toMapsEntries_some c _ _ _ (mem_main_all t htl)
        (by rw [getQuantity_main c m t hm htl]; rfl)
    have hval : validate_data (mapNames (to_maps c t)) t = true := by
      have hc : (mapNames (to_maps c t)).contains t.name = true := by
        rw [show mapNames (to_maps c t) =
              (toMapsEntries c (all_quantities t)).map (fun p => p.1) from rfl,
          contains_eq_isSome_lookupEntry, hmain]
        rfl
      simp only [validate_data, required_maps_eq t htl, List.all_cons,
        List.all_nil, hc, Bool.and_true]
    refine ⟨⟨from_maps_converted (to_maps c t) t m meta, false⟩, ?_, ?_, ?_⟩
    · simp [from_maps, hval, htl]
    · refine ⟨?_, ?_, ?_, ?_, ?_, ?_, ?_, ?_, ?_, ?_, ?_, ?_, ?_⟩
      · show divBy ((lookupEntry (toMapsEntries c (all_quantities t)) t.name).getD [])
            (referenceFluxes m (to_maps c t).axis t) = c.data.norm
        rw [show (to_maps c t).axis = c.axis from rfl, hmain]
        exact divBy_scaleBy c.norm _ hlen hf
      · intro v hv
        show (lookupEntry (toMapsEntries c (all_quantities t)) (t.name ++ "_err")).map
            (fun w => divBy w (referenceFluxes m (to_maps c t).axis t)) = some v
        rw [show (to_maps c t).axis = c.axis from rfl,
          lookupEntry_toMapsEntries_some c _ _ _ (mem_opt_all t htl "_err" (by decide))
            (by rw [getQuantity_opt c m t hm htl "_err" (by decide) v hv]; rfl)]
        rw [Option.map_some']
        rw [divBy_scaleBy v _ (hlerr v hv) hf]
      · intro v hv
        show (lookupEntry (toMapsEntries c (all_quantities t)) (t.name ++ "_errn")).map
            (fun w => divBy w (referenceFluxes m (to_maps c t).axis t)) = some v
        rw [show (to_maps c t).axis = c.axis from rfl,
          lookupEntry_toMapsEntries_some c _ _ _ (mem_opt_all t htl "_errn" (by decide))
            (by rw [getQuantity_opt c m t hm htl "_errn" (by decide) v hv]; rfl)]
        rw [Option.map_some']
        rw [divBy_scaleBy v _ (hlerrn v hv) hf]
      · intro v hv
        show (lookupEntry (toMapsEntries c (all_quantities t)) (t.name ++ "_errp")).map
            (fun w => divBy w (referenceFluxes m (to_maps c t).axis t)) = some v
        rw [show (to_maps c t).axis = c.axis from rfl,
          lookupEntry_toMapsEntries_some c _ _ _ (mem_opt_all t htl "_errp" (by decide))
            (by rw [getQuantity_opt c m t hm htl "_errp" (by decide) v hv]; rfl)]
        rw [Option.map_some']
        rw [divBy_scaleBy v _ (hlerrp v hv) hf]
      · intro v hv
        show (lookupEntry (toMapsEntries c (all_quantities t)) (t.name ++ "_ul")).map
            (fun w => divBy w (referenceFluxes m (to_maps c t).axis t)) = some v
        rw [show (to_maps c t).axis = c.axis from rfl,
          lookupEntry_toMapsEntries_some c _ _ _ (mem_opt_all t htl "_ul" (by decide))
            (by rw [getQuantity_opt c m t hm htl "_ul" (by decide) v hv]; rfl)]
        rw [Option.map_some']
        rw [divBy_scaleBy v _ (hlul v hv) hf]
      · intro v hv
        exact lookupEntry_toMapsEntries_some c _ "ts" v
          (mem_common_all "ts" (by decide) t) (by rw [getQ_ts, hv])
      · intro v hv
        exact lookupEntry_toMapsEntries_some c _ "sqrt_ts" v
          (mem_common_all "sqrt_ts" (by decide) t) (getQ_sqrt_ts_stored c v hv)
      · intro v hv
        exact lookupEntry_toMapsEntries_some c _ "npred" v
          (mem_common_all "npred" (by decide) t) (by rw [getQ_npred, hv])
      · intro v hv
        exact lookupEntry_toMapsEntries_some c _ "npred_null" v
          (mem_common_all "npred_null" (by decide) t) (by rw [getQ_npred_null, hv])
      · intro v hv
        exact lookupEntry_toMapsEntries_some c _ "stat" v
          (mem_common_all "stat" (by decide) t) (by rw [getQ_stat, hv])
      · intro v hv
        exact lookupEntry_toMapsEntries_some c _ "stat_null" v
          (mem_common_all "stat_null" (by decide) t) (by rw [getQ_stat_null, hv])
      · intro v hv
        exact lookupEntry_toMapsEntries_some c _ "niter" v
          (mem_common_all "niter" (by decide) t) (by rw [getQ_niter, hv])
      · intro v hv
        exact lookupEntry_toMapsEntries_some c _ "counts" v
          (mem_common_all "counts" (by decide) t) (by rw [getQ_counts, hv])
    · intro heq
      exact absurd heq htl

/-- C1 counterexample: the container cScan stores the optional quantity
stat_scan, but the round trip through the dnde SED type does not
reproduce it — to_maps for a non-likelihood type never exports the stat
profile, so the rebuilt container has no stat_scan. -/
theorem C1_counterexample :
    cScan.data.stat_scan = some [FVal.num 5]
    ∧ (from_maps (to_maps cScan SedType.dnde) (some SedType.dnde)
          (some modelConst) {}).map (fun r => r.container.data.stat_scan) =
        Except.ok none :=
  ⟨rfl, rfl⟩

/-- Witness for C1 at a concrete dnde round trip: container with a NaN
norm entry, a stored error and two stored common quantities, constant
nonzero factors. -/
theorem C1_roundtrip_witness :
    ∃ r, from_maps (to_maps cWit SedType.dnde) (some SedType.dnde)
          (some modelConst) {} = Except.ok r
      ∧ Reproduces cWit r.container
      ∧ (SedType.dnde = SedType.likelihood →
          ∀ v, cWit.data.stat_scan = some v →
            r.container.data.stat_scan = some v) :=
  C1_roundtrip cWit modelConst SedType.dnde {} rfl (by decide)
    ⟨by decide,
     fun v h => by cases Option.some.inj h; decide,
     fun v h => Option.noConfusion h,
     fun v h => Option.noConfusion h,
     fun v h => Option.noConfusion h⟩

end GammapyFlux
